import Mathlib

/-!
Shallow embedding of the `fake_account_detector` repository.

The embedding translates the Python modules `src/utils/verdict.py`,
`src/utils/instagram_fetch.py`, `src/utils/image_check.py` and the image
branch of `src/streamlit_app.py` into executable Lean definitions.
Python floats are modelled as exact rationals; Python machine behaviour
that matters to the claims (banker rounding of `round`, truncation of
`int(...)`, string methods `strip`/`lower`/`replace`/`lstrip`) is modelled
explicitly below over `List Char`, so that every definition reduces in the
kernel.
-/

namespace FakeAccountDetector

attribute [local semireducible] Rat.mul Rat.inv Rat.add Rat.sub

/- ### Python string and number primitives -/

/-- Whitespace characters stripped by Python `str.strip()` and matched by
the regex class `\s` (space, tab, newline, carriage return, form feed,
vertical tab). -/
def pyIsSpace (c : Char) : Bool :=
  c == ' ' || c == '\t' || c == '\n' || c == '\r' || c == '\x0c' || c == '\x0b'

/-- `str.strip()` on the character list of a string. -/
def pyStripList (cs : List Char) : List Char :=
  ((cs.dropWhile pyIsSpace).reverse.dropWhile pyIsSpace).reverse

/-- Python `str.strip()`. -/
def pyStrip (s : String) : String := String.mk (pyStripList s.data)

/-- ASCII decimal digit test, the regex class `\d` for the inputs at hand. -/
def isDigitChar (c : Char) : Bool := '0' ≤ c && c ≤ '9'

/-- Numeric value of a decimal digit character. -/
def digitVal (c : Char) : Nat := c.toNat - 48

/-- Value of a list of decimal digit characters, most significant first. -/
def digitsToNat (cs : List Char) : Nat :=
  cs.foldl (fun a c => 10 * a + digitVal c) 0

/-- Does `p` lead the list `cs` (list-level `startsWith`)? -/
def leadsWith : List Char → List Char → Bool
  | [], _ => true
  | _ :: _, [] => false
  | p :: ps, c :: cs => p == c && leadsWith ps cs

/-- Does `pat` occur contiguously in the list? Models the Python operator
`pat in s` on strings. -/
def occursIn (pat : List Char) : List Char → Bool
  | [] => pat.isEmpty
  | c :: cs => leadsWith pat (c :: cs) || occursIn pat cs

/-- Python `pat in s` for strings. -/
def occursInStr (pat s : String) : Bool := occursIn pat.data s.data

/-- Exponent part of the Python `float(...)` literal grammar: optional sign
followed by a nonempty digit run ending the string. -/
def pyFloatExp (sgn mant : ℚ) (r : List Char) : Option ℚ :=
  let sr : ℤ × List Char :=
    match r with
    | '+' :: r1 => (1, r1)
    | '-' :: r1 => (-1, r1)
    | r1 => (1, r1)
  let ed := sr.2.takeWhile isDigitChar
  let rest := sr.2.dropWhile isDigitChar
  if ed.isEmpty || !rest.isEmpty then none
  else some (sgn * mant * (10 : ℚ) ^ (sr.1 * (digitsToNat ed : ℤ)))

/-- Python `float(s)` on the decimal literal forms that can reach it here:
optional sign, digits with at most one point (at least one digit overall),
optional exponent. Returns `none` where CPython raises `ValueError`. -/
def pyFloatList (cs : List Char) : Option ℚ :=
  let sc : ℚ × List Char :=
    match cs with
    | '+' :: r => (1, r)
    | '-' :: r => (-1, r)
    | r => (1, r)
  let ip := sc.2.takeWhile isDigitChar
  let afterInt := sc.2.dropWhile isDigitChar
  let fpRest : Option (List Char) × List Char :=
    match afterInt with
    | '.' :: r => (some (r.takeWhile isDigitChar), r.dropWhile isDigitChar)
    | r => (none, r)
  let fp := fpRest.1.getD []
  if ip.isEmpty && fp.isEmpty then none
  else
    let mant : ℚ := (digitsToNat ip : ℚ) + (digitsToNat fp : ℚ) / (10 : ℚ) ^ fp.length
    match fpRest.2 with
    | [] => some (sc.1 * mant)
    | 'e' :: r => pyFloatExp sc.1 mant r
    | 'E' :: r => pyFloatExp sc.1 mant r
    | _ => none

/-- Python `int(x)` on a float value: truncation toward zero. -/
def pyTrunc (q : ℚ) : ℤ := Int.tdiv q.num (q.den : ℤ)

/-- Python `round(x)` with no digits argument: round half to even,
returning an integer. -/
def roundHalfToEven (q : ℚ) : ℤ :=
  if q - (⌊q⌋ : ℚ) = 1 / 2 then (if ⌊q⌋ % 2 = 0 then ⌊q⌋ else ⌊q⌋ + 1)
  else ⌊q + 1 / 2⌋

/-- Python `round(x, 4)`: round half to even at the fourth decimal place. -/
def pyRoundTo4 (q : ℚ) : ℚ := (roundHalfToEven (q * 10000) : ℚ) / 10000

/-- Python truthiness of `value or default` for an optional string
(`None` and the empty string are falsy), wrapped in `str(...)`. -/
def pyOrStr (v : Option String) (default : String) : String :=
  match v with
  | some s => if s = "" then default else s
  | none => default

/-- Python truthiness of an optional string. -/
def pyTruthyStr (v : Option String) : Bool :=
  match v with
  | some s => s ≠ ""
  | none => false

/-- Python `sep.join(xs)`. -/
def pyJoin (sep : String) : List String → String
  | [] => ""
  | [s] => s
  | s :: rest => s ++ sep ++ pyJoin sep rest

/- ### `_to_int` of `src/utils/instagram_fetch.py` -/

/-- A Python value as it can reach `_to_int`: `None`, an `int`, a `float`,
or a `str`. -/
inductive PyVal where
  | none
  | int (z : ℤ)
  | float (q : ℚ)
  | str (s : String)
deriving DecidableEq

/-- `_to_int` of `src/utils/instagram_fetch.py` (lines 109-130): `None` and
numbers short-circuit; strings are stripped, lowercased and comma-free,
`""` and `"n/a"` give 0, a trailing `k`/`m` multiplies by 1000/1000000,
and any string `float(...)` rejects gives 0. -/
def _to_int (value : PyVal) : ℤ :=
  match value with
  | .none => 0
  | .int z => z
  | .float q => pyTrunc q
  | .str s =>
      let cleaned : List Char :=
        ((pyStripList s.data).map Char.toLower).filter (fun c => c ≠ ',')
      if cleaned = [] ∨ cleaned = ['n', '/', 'a'] then 0
      else
        let mc : ℚ × List Char :=
          if cleaned.getLast? = some 'k' then (1000, cleaned.dropLast)
          else if cleaned.getLast? = some 'm' then (1000000, cleaned.dropLast)
          else (1, cleaned)
        match pyFloatList mc.2 with
        | some q => pyTrunc (q * mc.1)
        | none => 0

/-- Claim C6: the count normalizer maps `"1,234"` to 1234, `"12.3k"` to
12300, `"1.5m"` to 1500000, `"N/A"` and `""` to 0, treats the `k`/`m`
suffix case-insensitively as a multiplier of the preceding decimal number,
and maps malformed input such as `"1.2.3k"` to 0 instead of failing. -/
theorem to_int_normalization :
    _to_int (.str "1,234") = 1234 ∧
    _to_int (.str "12.3k") = 12300 ∧
    _to_int (.str "12.3K") = 12300 ∧
    _to_int (.str "1.5m") = 1500000 ∧
    _to_int (.str "1.5M") = 1500000 ∧
    _to_int (.str "N/A") = 0 ∧
    _to_int (.str "n/a") = 0 ∧
    _to_int (.str "") = 0 ∧
    _to_int (.str "  7k ") = 7000 ∧
    _to_int (.str "2M") = 2000000 ∧
    _to_int (.str "1.2.3k") = 0 ∧
    _to_int (.str "abc") = 0 := by
  decide

/- ### HTML extractor of `src/utils/instagram_fetch.py` -/

/-- `InstagramProfile` data class of `src/utils/instagram_fetch.py`. -/
structure InstagramProfile where
  username : String
  bio : String
  followers_count : ℤ
  following_count : ℤ
  media_count : ℤ
  has_profile_pic : ℤ
deriving DecidableEq

/-- A raw HTML document, abstracted to the items the extraction regexes of
`src/utils/instagram_fetch.py` read from it: the `meta name="description"`
content, the embedded `"biography":"..."` JSON string (after the
`unicode_escape` decode of lines 144-148), the JSON-LD `description` (when
a script block with valid JSON is present), the captured digit runs of the
`edge_followed_by` / `edge_follow` / `edge_owner_to_timeline_media` count
hints, and whether the marker `profile_pic_url` occurs in the page. -/
structure HtmlDoc where
  metaDescription : Option String
  biographyField : Option String
  ldJsonDescription : Option String
  edgeFollowedByHint : Option String
  edgeFollowHint : Option String
  edgeMediaHint : Option String
  hasProfilePicMarker : Bool
deriving DecidableEq

/-- Characters matched by the regex class `[\d,.]` of `parse_counts`. -/
def isCountChar (c : Char) : Bool := isDigitChar c || c == ',' || c == '.'

/-- One anchored attempt of the regex `([\d,.]+)\s+<word>` at the current
position: a nonempty `[\d,.]` run, a nonempty whitespace run, then the
literal word. The three character classes are disjoint, so greedy matching
without backtracking coincides with the regex engine. -/
def matchCountAt (word : List Char) (cs : List Char) : Option (List Char) :=
  let num := cs.takeWhile isCountChar
  let rest := cs.dropWhile isCountChar
  if num.isEmpty then none
  else
    let sp := rest.takeWhile pyIsSpace
    let rest2 := rest.dropWhile pyIsSpace
    if sp.isEmpty then none
    else if leadsWith word rest2 then some num else none

/-- `re.search` for the pattern `([\d,.]+)\s+<word>`: leftmost match,
returning the captured group. -/
def searchCountToken (word : List Char) : List Char → Option (List Char)
  | [] => none
  | c :: cs =>
      match matchCountAt word (c :: cs) with
      | some n => some n
      | Option.none => searchCountToken word cs

/-- `parse_counts` of `src/utils/instagram_fetch.py` (lines 87-106). -/
def parse_counts (meta : String) : String × String × String :=
  if meta = "" then ("N/A", "N/A", "N/A")
  else
    let f1 := searchCountToken "Followers".data meta.data
    let f2 := searchCountToken "Following".data meta.data
    let f3 := searchCountToken "Posts".data meta.data
    ((f1.map String.mk).getD "N/A",
     (f2.map String.mk).getD "N/A",
     (f3.map String.mk).getD "N/A")

/-- `extract_bio_from_html` of `src/utils/instagram_fetch.py` (lines
133-153) over the abstracted document: the captured biography string,
stripped; `""` when the regex does not match. -/
def extract_bio_from_html (doc : HtmlDoc) : String :=
  match doc.biographyField with
  | some bio => pyStrip bio
  | none => ""

/-- Lines 161-178 of `_parse_profile_from_html`: biography with the
JSON-LD fallback and the `"(No bio)"` placeholder. -/
def profileBio (doc : HtmlDoc) : String :=
  let bio := extract_bio_from_html doc
  let bio :=
    if bio = "" then
      match doc.ldJsonDescription with
      | some d => pyStrip d
      | none => bio
    else bio
  if bio = "" then "(No bio)" else bio

/-- Lines 159, 180-192 of `_parse_profile_from_html`: the meta-description
counts, falling back to the embedded count hints when all three are 0. -/
def profileCounts (doc : HtmlDoc) : ℤ × ℤ × ℤ :=
  let parsed := parse_counts (doc.metaDescription.getD "")
  let followers := _to_int (.str parsed.1)
  let following := _to_int (.str parsed.2.1)
  let posts := _to_int (.str parsed.2.2)
  if followers = 0 ∧ following = 0 ∧ posts = 0 then
    (_to_int (match doc.edgeFollowedByHint with | some h => .str h | Option.none => .int 0),
     _to_int (match doc.edgeFollowHint with | some h => .str h | Option.none => .int 0),
     _to_int (match doc.edgeMediaHint with | some h => .str h | Option.none => .int 0))
  else (followers, following, posts)

/-- `_parse_profile_from_html` of `src/utils/instagram_fetch.py` (lines
156-207). -/
def _parse_profile_from_html (username : String) (doc : HtmlDoc) :
    Option InstagramProfile :=
  let bio := profileBio doc
  let counts := profileCounts doc
  let has_picture : ℤ := if doc.hasProfilePicMarker then 1 else 0
  if counts.1 = 0 ∧ counts.2.1 = 0 ∧ counts.2.2 = 0 ∧ (bio = "" ∨ bio = "(No bio)") then
    none
  else
    some { username := username, bio := bio, followers_count := counts.1,
           following_count := counts.2.1, media_count := counts.2.2,
           has_profile_pic := has_picture }

/-- The placeholder substitution never yields the empty string. -/
theorem ite_placeholder_ne_empty (s : String) :
    (if s = "" then "(No bio)" else s) ≠ "" := by
  split
  · decide
  · assumption

/-- The biography after all fallbacks is never the empty string: the last
fallback replaces `""` with the placeholder. -/
theorem profileBio_ne_empty (doc : HtmlDoc) : profileBio doc ≠ "" := by
  unfold profileBio
  exact ite_placeholder_ne_empty _

/-- Claim C7: the extractor returns no profile exactly when, after all
fallbacks, the three counts are all zero and the biography is still the
`"(No bio)"` placeholder; whenever a count is non-zero or the biography
differs from the placeholder, a profile is returned. -/
theorem parse_profile_none_iff (username : String) (doc : HtmlDoc) :
    (_parse_profile_from_html username doc = none ↔
      profileCounts doc = (0, 0, 0) ∧ profileBio doc = "(No bio)") ∧
    profileBio doc ≠ "" := by
  refine ⟨?_, profileBio_ne_empty doc⟩
  have hb := profileBio_ne_empty doc
  simp only [_parse_profile_from_html]
  by_cases hP : (profileCounts doc).1 = 0 ∧ (profileCounts doc).2.1 = 0 ∧
      (profileCounts doc).2.2 = 0 ∧ (profileBio doc = "" ∨ profileBio doc = "(No bio)")
  · rw [if_pos hP]
    obtain ⟨h1, h2, h3, h4⟩ := hP
    simp only [true_iff]
    refine ⟨?_, h4.resolve_left hb⟩
    rw [Prod.ext_iff, Prod.ext_iff]
    exact ⟨h1, h2, h3⟩
  · rw [if_neg hP]
    simp only [reduceCtorEq, false_iff]
    intro hcb
    apply hP
    rw [Prod.ext_iff, Prod.ext_iff] at hcb
    exact ⟨hcb.1.1, hcb.1.2.1, hcb.1.2.2, Or.inr hcb.2⟩

/- ### Fetch strategies of `src/utils/instagram_fetch.py`

Side effects are made explicit: every strategy receives the outcome of the
network or library calls it would perform, and returns
`Except String (Option InstagramProfile × String)`, where `Except.error`
models a Python exception escaping the strategy and `Except.ok` models the
`(profile_or_None, message)` pair the Python function returns. -/

/-- Decidable equality for `Except`, so that orchestration outcomes can be
evaluated on concrete worlds. -/
instance exceptDecEq {ε α : Type} [DecidableEq ε] [DecidableEq α] :
    DecidableEq (Except ε α) := fun x y =>
  match x, y with
  | .ok a, .ok b => if h : a = b then isTrue (by rw [h]) else isFalse (by simp [h])
  | .error e, .error f => if h : e = f then isTrue (by rw [h]) else isFalse (by simp [h])
  | .ok _, .error _ => isFalse (by simp)
  | .error _, .ok _ => isFalse (by simp)

/-- Outcome of a `session.get(url, timeout=20)` call: either a raised
transport exception (connection error, timeout, ...) or a response with an
HTTP status code and a body. -/
inductive HttpResult (β : Type) where
  | raised (exn : String)
  | ok (status : Nat) (body : β)
deriving DecidableEq

/-- Is the HTTP outcome a raised transport exception? -/
def HttpResult.isRaised {β : Type} : HttpResult β → Bool
  | .raised _ => true
  | .ok _ _ => false

/-- The `data.user` object of the web profile API payload, reduced to the
fields lines 257-264 read. Counts model `.get("edge_*", {}).get("count", 0)`
with `none` for an absent key. -/
structure WebApiUser where
  username : Option String
  biography : Option String
  edge_followed_by_count : Option PyVal
  edge_follow_count : Option PyVal
  edge_media_count : Option PyVal
  has_profile_pic_url : Bool
deriving DecidableEq

/-- A decoded web profile API JSON payload: `data.user` and `status`. -/
structure WebApiPayload where
  user : Option WebApiUser
  status : Option String
deriving DecidableEq

/-- The `graphql.user` object of the legacy JSON payload, reduced to the
fields lines 289-297 read. -/
structure LegacyUser where
  username : Option String
  biography : Option String
  edge_followed_by_count : Option PyVal
  edge_follow_count : Option PyVal
  edge_media_count : Option PyVal
  profile_pic_url_hd : Option String
  profile_pic_url : Option String
deriving DecidableEq

/-- A decoded legacy JSON payload: `graphql.user`. -/
structure LegacyPayload where
  user : Option LegacyUser
deriving DecidableEq

/-- The instagrapi `user_info_by_username` result, reduced to the fields
lines 324-332 read. -/
structure IgUserInfo where
  username : Option String
  biography : Option String
  follower_count : PyVal
  following_count : PyVal
  media_count : PyVal
  profile_pic_url : Option String
deriving DecidableEq

/-- Outcome of the Playwright page rendering: the `goto` response status
(`none` when `page.goto` returns `None`) and the rendered document. -/
structure PlaywrightRun where
  responseStatus : Option Nat
  html : HtmlDoc
deriving DecidableEq

/-- The instaloader `Profile.from_username` result, reduced to the fields
lines 359-366 read. -/
structure LoaderProfile where
  username : String
  biography : String
  followers : ℤ
  followees : ℤ
  mediacount : ℤ
deriving DecidableEq

/-- `_fetch_via_requests` (lines 210-223): GET of the profile page; 404 and
other error statuses become failure reasons, otherwise the page is handed
to the extractor. The GET itself is not wrapped in try/except, so a raised
transport exception propagates. -/
def _fetch_via_requests (username : String) (network : HttpResult HtmlDoc) :
    Except String (Option InstagramProfile × String) :=
  match network with
  | .raised exn => .error exn
  | .ok status body =>
      if status = 404 then .ok (none, "Username not found on Instagram.")
      else if 400 ≤ status then
        .ok (none, "Instagram returned HTTP " ++ toString status ++ ".")
      else
        match _parse_profile_from_html username body with
        | none => .ok (none, "Instagram page parsing failed.")
        | some profile => .ok (some profile, "Requests scraper")

/-- `_fetch_via_web_profile_api` (lines 226-265): GET of the structured
web profile endpoint; the body is `none` when `response.json()` raises.
The GET itself is not wrapped in try/except, so a raised transport
exception propagates. -/
def _fetch_via_web_profile_api (username : String)
    (network : HttpResult (Option WebApiPayload)) :
    Except String (Option InstagramProfile × String) :=
  match network with
  | .raised exn => .error exn
  | .ok status body =>
      if status = 404 then .ok (none, "Username not found on Instagram.")
      else if 400 ≤ status then
        .ok (none, "Web API returned HTTP " ++ toString status ++ ".")
      else
        match body with
        | none => .ok (none, "Web API returned invalid JSON.")
        | some payload =>
            match payload.user with
            | none =>
                if payload.status = some "fail" then
                  .ok (none, "Web API denied access for this profile.")
                else .ok (none, "Web API user payload missing.")
            | some user =>
                .ok (some {
                    username := pyOrStr user.username username,
                    bio := pyOrStr user.biography "(No bio)",
                    followers_count := _to_int (user.edge_followed_by_count.getD (.int 0)),
                    following_count := _to_int (user.edge_follow_count.getD (.int 0)),
                    media_count := _to_int (user.edge_media_count.getD (.int 0)),
                    has_profile_pic := if user.has_profile_pic_url then 1 else 0 },
                  "Instagram web API")

/-- `_fetch_via_legacy_json` (lines 268-299): GET of the legacy
`?__a=1&__d=dis` endpoint; the body is `none` when `response.json()`
raises. The GET itself is not wrapped in try/except, so a raised transport
exception propagates. -/
def _fetch_via_legacy_json (username : String)
    (network : HttpResult (Option LegacyPayload)) :
    Except String (Option InstagramProfile × String) :=
  match network with
  | .raised exn => .error exn
  | .ok status body =>
      if status = 404 then .ok (none, "Legacy JSON username not found.")
      else if 400 ≤ status then
        .ok (none, "Legacy JSON returned HTTP " ++ toString status ++ ".")
      else
        match body with
        | none => .ok (none, "Legacy JSON invalid payload.")
        | some payload =>
            match payload.user with
            | none => .ok (none, "Legacy JSON user payload missing.")
            | some user =>
                .ok (some {
                    username := pyOrStr user.username username,
                    bio := pyOrStr user.biography "(No bio)",
                    followers_count := _to_int (user.edge_followed_by_count.getD (.int 0)),
                    following_count := _to_int (user.edge_follow_count.getD (.int 0)),
                    media_count := _to_int (user.edge_media_count.getD (.int 0)),
                    has_profile_pic :=
                      if pyTruthyStr user.profile_pic_url_hd || pyTruthyStr user.profile_pic_url
                      then 1 else 0 },
                  "Instagram legacy JSON")

/-- `_fetch_via_instagrapi` (lines 302-339): `creds` is the resolved
login/password pair (`none` when either is missing), `importOk` models the
`from instagrapi import Client` try, and `call` is the outcome of the
login plus `user_info_by_username` try block, whose exception message is
classified. Every fault is absorbed inside the strategy. -/
def _fetch_via_instagrapi (username : String) (creds : Option (String × String))
    (importOk : Bool) (call : Except String IgUserInfo) :
    Except String (Option InstagramProfile × String) :=
  match creds with
  | none => .ok (none, "Instagrapi credentials missing.")
  | some _ =>
      if !importOk then .ok (none, "Instagrapi unavailable.")
      else
        match call with
        | .ok user_info =>
            .ok (some {
                username := pyOrStr user_info.username username,
                bio := pyOrStr user_info.biography "(No bio)",
                followers_count := _to_int user_info.follower_count,
                following_count := _to_int user_info.following_count,
                media_count := _to_int user_info.media_count,
                has_profile_pic := if pyTruthyStr user_info.profile_pic_url then 1 else 0 },
              "Instagrapi authenticated")
        | .error exc =>
            if occursInStr "429" exc || occursInStr "Please wait" exc then
              .ok (none, "Instagrapi rate-limited (429).")
            else .ok (none, "Instagrapi failed: " ++ exc)

/-- `_fetch_via_playwright` (lines 375-409): `importOk` models the
`from playwright.sync_api import sync_playwright` try, and `run` the whole
browser block; any exception inside it is absorbed into the
`Playwright failed: ...` reason. -/
def _fetch_via_playwright (username : String) (importOk : Bool)
    (run : Except String PlaywrightRun) :
    Except String (Option InstagramProfile × String) :=
  if !importOk then .ok (none, "Playwright unavailable.")
  else
    match run with
    | .error exc => .ok (none, "Playwright failed: " ++ exc)
    | .ok r =>
        match r.responseStatus with
        | some status =>
            if 400 ≤ status then
              .ok (none, "Instagram returned HTTP " ++ toString status ++ ".")
            else
              match _parse_profile_from_html username r.html with
              | none => .ok (none, "Playwright page parsing failed.")
              | some profile => .ok (some profile, "Playwright scraper")
        | none =>
            match _parse_profile_from_html username r.html with
            | none => .ok (none, "Playwright page parsing failed.")
            | some profile => .ok (some profile, "Playwright scraper")

/-- `_fetch_via_instaloader` (lines 342-372): `envEnabled` models the
`INSTAGRAM_ENABLE_INSTALOADER` gate, `importOk` the `import instaloader`
try, and `call` the loader try block, whose exception message is
classified. Every fault is absorbed inside the strategy. -/
def _fetch_via_instaloader (username : String) (envEnabled : Bool)
    (importOk : Bool) (call : Except String LoaderProfile) :
    Except String (Option InstagramProfile × String) :=
  if !envEnabled then .ok (none, "Instaloader disabled.")
  else if !importOk then .ok (none, "Instaloader unavailable.")
  else
    match call with
    | .ok p =>
        .ok (some {
            username := p.username,
            bio := if p.biography = "" then "(No bio)" else p.biography,
            followers_count := p.followers,
            following_count := p.followees,
            media_count := p.mediacount,
            has_profile_pic := 1 },
          "Instaloader")
    | .error exc =>
        if occursInStr "429" exc || occursInStr "Too Many Requests" exc then
          .ok (none, "Instaloader rate-limited (429).")
        else .ok (none, "Instaloader failed: " ++ exc)

/- ### Orchestrator `fetch_instagram_profile` (lines 447-486) -/

/-- The effect environment of one `fetch_instagram_profile` call: the
outcome each strategy would observe if invoked. -/
structure FetchWorld where
  instagrapiCreds : Option (String × String)
  instagrapiImportOk : Bool
  instagrapiCall : Except String IgUserInfo
  webApiNetwork : HttpResult (Option WebApiPayload)
  legacyNetwork : HttpResult (Option LegacyPayload)
  requestsNetwork : HttpResult HtmlDoc
  playwrightImportOk : Bool
  playwrightRun : Except String PlaywrightRun
  instaloaderEnabled : Bool
  instaloaderImportOk : Bool
  instaloaderCall : Except String LoaderProfile

/-- Line 464: `(username or "").strip().lstrip("@")`. -/
def clean_username (username : String) : String :=
  String.mk ((pyStripList username.data).dropWhile (fun c => c == '@'))

/-- The `fetchers` tuple of lines 470-477, in source order. -/
def fetchersOf (w : FetchWorld) :
    List (String → Except String (Option InstagramProfile × String)) :=
  [fun handle => _fetch_via_instagrapi handle w.instagrapiCreds w.instagrapiImportOk w.instagrapiCall,
   fun handle => _fetch_via_web_profile_api handle w.webApiNetwork,
   fun handle => _fetch_via_legacy_json handle w.legacyNetwork,
   fun handle => _fetch_via_requests handle w.requestsNetwork,
   fun handle => _fetch_via_playwright handle w.playwrightImportOk w.playwrightRun,
   fun handle => _fetch_via_instaloader handle w.instaloaderEnabled w.instaloaderImportOk w.instaloaderCall]

/-- Lines 485-486: the aggregated failure message, joining the non-empty
collected reasons with a separator in attempt order. -/
def exhaustedMessage (errors : List String) : String :=
  "Unable to fetch from Instagram. Please enter account details manually. ("
    ++ pyJoin " | " (errors.filter (fun e => e ≠ "")) ++ ")"

/-- The `for fetcher in fetchers` loop of lines 479-483: run each strategy
in order, return the first success, collect failure reasons otherwise; a
Python exception raised inside a strategy aborts the loop. -/
def fetchLoop (handle : String) :
    List (String → Except String (Option InstagramProfile × String)) →
    List String → Except String (Option InstagramProfile × String)
  | [], errors => .ok (none, exhaustedMessage errors)
  | fetcher :: rest, errors =>
      match fetcher handle with
      | .error exn => .error exn
      | .ok (some profile, message) => .ok (some profile, message)
      | .ok (none, message) => fetchLoop handle rest (errors ++ [message])

/-- `fetch_instagram_profile` of `src/utils/instagram_fetch.py`
(lines 447-486). -/
def fetch_instagram_profile (username : String) (w : FetchWorld) :
    Except String (Option InstagramProfile × String) :=
  let cleaned_username := clean_username username
  if cleaned_username = "" then .ok (none, "Please enter a valid username.")
  else fetchLoop cleaned_username (fetchersOf w) []

/-- The strategy outcome list in the priority order of the source. -/
def stratResults (handle : String) (w : FetchWorld) :
    List (Except String (Option InstagramProfile × String)) :=
  (fetchersOf w).map (fun fetcher => fetcher handle)

/-- The fetch loop, rephrased over the list of strategy outcomes. -/
def resultsLoop :
    List (Except String (Option InstagramProfile × String)) → List String →
    Except String (Option InstagramProfile × String)
  | [], errors => .ok (none, exhaustedMessage errors)
  | .error exn :: _, _ => .error exn
  | .ok (some profile, message) :: _, _ => .ok (some profile, message)
  | .ok (none, message) :: rest, errors => resultsLoop rest (errors ++ [message])

/-- `fetchLoop` only looks at each strategy through its outcome. -/
theorem fetchLoop_eq_resultsLoop (handle : String)
    (fetchers : List (String → Except String (Option InstagramProfile × String)))
    (errors : List String) :
    fetchLoop handle fetchers errors =
      resultsLoop (fetchers.map (fun f => f handle)) errors := by
  induction fetchers generalizing errors with
  | nil => rfl
  | cons f rest ih =>
      simp only [List.map_cons, fetchLoop]
      cases hf : f handle with
      | error exn => rfl
      | ok r =>
          obtain ⟨po, m⟩ := r
          cases po with
          | none => exact ih _
          | some profile => rfl

/-- If every strategy before position `n` fails and position `n` succeeds,
the loop returns that success, regardless of later outcomes. -/
theorem resultsLoop_first_success
    (results : List (Except String (Option InstagramProfile × String)))
    (errors : List String) (n : Nat) (p : InstagramProfile) (label : String)
    (hfail : ∀ i, i < n → ∃ m, results[i]? = some (Except.ok (Option.none, m)))
    (hsucc : results[n]? = some (Except.ok (some p, label))) :
    resultsLoop results errors = .ok (some p, label) := by
  induction results generalizing n errors with
  | nil => simp at hsucc
  | cons e rest ih =>
      cases n with
      | zero =>
          simp only [List.getElem?_cons_zero, Option.some.injEq] at hsucc
          subst hsucc
          rfl
      | succ n =>
          obtain ⟨m, hm⟩ := hfail 0 (Nat.succ_pos n)
          simp only [List.getElem?_cons_zero, Option.some.injEq] at hm
          subst hm
          simp only [List.getElem?_cons_succ] at hsucc
          exact ih (errors ++ [m]) n
            (fun i hi => by simpa using hfail (i + 1) (Nat.succ_lt_succ hi)) hsucc

/-- If every strategy fails with a reason, the loop returns the aggregated
message over all reasons in attempt order. -/
theorem resultsLoop_all_fail (rs : List (Option InstagramProfile × String))
    (errors : List String) (hfail : ∀ r ∈ rs, r.1 = Option.none) :
    resultsLoop (rs.map Except.ok) errors =
      .ok (none, exhaustedMessage (errors ++ rs.map Prod.snd)) := by
  induction rs generalizing errors with
  | nil => simp [resultsLoop]
  | cons r rest ih =>
      obtain ⟨po, m⟩ := r
      have h1 : po = Option.none := hfail (po, m) (List.mem_cons_self _ _)
      subst h1
      simp only [List.map_cons]
      rw [resultsLoop]
      rw [ih (errors ++ [m]) (fun r hr => hfail r (List.mem_cons_of_mem _ hr))]
      simp [List.append_assoc]

/-- If every strategy outcome is a normal return, the loop returns
normally. -/
theorem resultsLoop_all_ok
    (results : List (Except String (Option InstagramProfile × String)))
    (errors : List String)
    (h : ∀ e ∈ results, ∃ r, e = Except.ok r) :
    ∃ r, resultsLoop results errors = .ok r := by
  induction results generalizing errors with
  | nil => exact ⟨_, rfl⟩
  | cons e rest ih =>
      obtain ⟨r, hr⟩ := h e (List.mem_cons_self _ _)
      subst hr
      obtain ⟨po, m⟩ := r
      cases po with
      | none => exact ih _ (fun e he => h e (List.mem_cons_of_mem _ he))
      | some profile => exact ⟨_, rfl⟩

/-- Appending cannot erase a non-empty first part. -/
theorem str_append_ne_empty (s t : String) (h : s ≠ "") : s ++ t ≠ "" := by
  intro hc
  apply h
  obtain ⟨a⟩ := s
  obtain ⟨b⟩ := t
  have hab : a ++ b = [] := congrArg String.data hc
  exact congrArg String.mk (List.append_eq_nil.mp hab).1

/-- The instagrapi strategy absorbs every fault of its calls. -/
theorem instagrapi_never_raises (u : String) (creds : Option (String × String))
    (imp : Bool) (call : Except String IgUserInfo) :
    ∃ r, _fetch_via_instagrapi u creds imp call = .ok r := by
  unfold _fetch_via_instagrapi
  rcases creds with _ | c
  · exact ⟨_, rfl⟩
  · cases imp
    · exact ⟨_, rfl⟩
    · rcases call with exc | info
      · by_cases h429 : (occursInStr "429" exc || occursInStr "Please wait" exc) = true
        · simp only [h429]
          exact ⟨_, rfl⟩
        · simp only [Bool.not_eq_true] at h429
          simp only [h429]
          exact ⟨_, rfl⟩
      · exact ⟨_, rfl⟩

/-- The Playwright strategy absorbs every fault of its browser block. -/
theorem playwright_never_raises (u : String) (imp : Bool)
    (run : Except String PlaywrightRun) :
    ∃ r, _fetch_via_playwright u imp run = .ok r := by
  unfold _fetch_via_playwright
  cases imp
  · exact ⟨_, rfl⟩
  · rcases run with exc | r
    · exact ⟨_, rfl⟩
    · obtain ⟨st, html⟩ := r
      cases st with
      | none =>
          rcases hp : _parse_profile_from_html u html with _ | profile <;>
            simp only [hp] <;> exact ⟨_, rfl⟩
      | some status =>
          by_cases hs : 400 ≤ status
          · simp only [if_pos hs]
            exact ⟨_, rfl⟩
          · simp only [if_neg hs]
            rcases hp : _parse_profile_from_html u html with _ | profile <;>
              simp only [hp] <;> exact ⟨_, rfl⟩

/-- The instaloader strategy absorbs every fault of its loader block. -/
theorem instaloader_never_raises (u : String) (en imp : Bool)
    (call : Except String LoaderProfile) :
    ∃ r, _fetch_via_instaloader u en imp call = .ok r := by
  unfold _fetch_via_instaloader
  cases en
  · exact ⟨_, rfl⟩
  · cases imp
    · exact ⟨_, rfl⟩
    · rcases call with exc | p
      · by_cases h429 : (occursInStr "429" exc || occursInStr "Too Many Requests" exc) = true
        · simp only [h429]
          exact ⟨_, rfl⟩
        · simp only [Bool.not_eq_true] at h429
          simp only [h429]
          exact ⟨_, rfl⟩
      · exact ⟨_, rfl⟩

/-- The requests strategy raises exactly the transport faults of its GET. -/
theorem requests_error_iff (u : String) (net : HttpResult HtmlDoc) (exn : String) :
    _fetch_via_requests u net = .error exn ↔ net = .raised exn := by
  cases net with
  | raised e => simp [_fetch_via_requests]
  | ok st body =>
      simp only [_fetch_via_requests]
      constructor
      · intro h
        split at h
        · exact absurd h (by simp)
        · split at h
          · exact absurd h (by simp)
          · rcases hp : _parse_profile_from_html u body with _ | profile <;>
              rw [hp] at h <;> exact absurd h (by simp)
      · intro h
        exact absurd h (by simp)

/-- The web profile API strategy raises exactly the transport faults of
its GET. -/
theorem web_api_error_iff (u : String) (net : HttpResult (Option WebApiPayload))
    (exn : String) :
    _fetch_via_web_profile_api u net = .error exn ↔ net = .raised exn := by
  cases net with
  | raised e => simp [_fetch_via_web_profile_api]
  | ok st body =>
      simp only [_fetch_via_web_profile_api]
      constructor
      · intro h
        split at h
        · exact absurd h (by simp)
        · split at h
          · exact absurd h (by simp)
          · rcases body with _ | payload
            · simp at h
            · obtain ⟨pu, ps⟩ := payload
              rcases pu with _ | user
              · dsimp only at h
                split at h <;> simp at h
              · simp at h
      · intro h
        exact absurd h (by simp)

/-- The legacy JSON strategy raises exactly the transport faults of its
GET. -/
theorem legacy_error_iff (u : String) (net : HttpResult (Option LegacyPayload))
    (exn : String) :
    _fetch_via_legacy_json u net = .error exn ↔ net = .raised exn := by
  cases net with
  | raised e => simp [_fetch_via_legacy_json]
  | ok st body =>
      simp only [_fetch_via_legacy_json]
      constructor
      · intro h
        split at h
        · exact absurd h (by simp)
        · split at h
          · exact absurd h (by simp)
          · rcases body with _ | payload
            · simp at h
            · obtain ⟨pu⟩ := payload
              rcases pu with _ | user <;> simp at h
      · intro h
        exact absurd h (by simp)

/-- The second component of a pair with a non-empty string is
non-empty. -/
theorem pair_snd_ne_empty {α : Type} (a : α) (s : String) (h : s ≠ "") :
    (a, s).2 ≠ "" := h

/-- The instagrapi strategy always returns a non-empty message. -/
theorem instagrapi_msg_ne (u : String) (creds : Option (String × String))
    (imp : Bool) (call : Except String IgUserInfo)
    (r : Option InstagramProfile × String)
    (h : _fetch_via_instagrapi u creds imp call = .ok r) : r.2 ≠ "" := by
  unfold _fetch_via_instagrapi at h
  rcases creds with _ | c
  · cases h; decide
  · cases imp
    · cases h; decide
    · rcases call with exc | info
      · by_cases h429 : (occursInStr "429" exc || occursInStr "Please wait" exc) = true
        · simp only [h429] at h
          cases h; decide
        · simp only [Bool.not_eq_true] at h429
          simp only [h429] at h
          cases h
          exact str_append_ne_empty _ _ (by decide)
      · cases h
        exact pair_snd_ne_empty _ _ (by decide)

/-- The web profile API strategy always returns a non-empty message. -/
theorem web_api_msg_ne (u : String) (net : HttpResult (Option WebApiPayload))
    (r : Option InstagramProfile × String)
    (h : _fetch_via_web_profile_api u net = .ok r) : r.2 ≠ "" := by
  cases net with
  | raised e => simp [_fetch_via_web_profile_api] at h
  | ok st body =>
      simp only [_fetch_via_web_profile_api] at h
      split at h
      · cases h; decide
      · split at h
        · cases h
          exact str_append_ne_empty _ _ (str_append_ne_empty _ _ (by decide))
        · rcases body with _ | payload
          · cases h; decide
          · obtain ⟨pu, ps⟩ := payload
            rcases pu with _ | user
            · dsimp only at h
              split at h <;> (cases h; decide)
            · cases h
              exact pair_snd_ne_empty _ _ (by decide)

/-- The legacy JSON strategy always returns a non-empty message. -/
theorem legacy_msg_ne (u : String) (net : HttpResult (Option LegacyPayload))
    (r : Option InstagramProfile × String)
    (h : _fetch_via_legacy_json u net = .ok r) : r.2 ≠ "" := by
  cases net with
  | raised e => simp [_fetch_via_legacy_json] at h
  | ok st body =>
      simp only [_fetch_via_legacy_json] at h
      split at h
      · cases h; decide
      · split at h
        · cases h
          exact str_append_ne_empty _ _ (str_append_ne_empty _ _ (by decide))
        · rcases body with _ | payload
          · cases h; decide
          · obtain ⟨pu⟩ := payload
            rcases pu with _ | user
            · dsimp only at h
              cases h; decide
            · dsimp only at h
              cases h
              exact pair_snd_ne_empty _ _ (by decide)

/-- The requests strategy always returns a non-empty message. -/
theorem requests_msg_ne (u : String) (net : HttpResult HtmlDoc)
    (r : Option InstagramProfile × String)
    (h : _fetch_via_requests u net = .ok r) : r.2 ≠ "" := by
  cases net with
  | raised e => simp [_fetch_via_requests] at h
  | ok st body =>
      simp only [_fetch_via_requests] at h
      split at h
      · cases h; decide
      · split at h
        · cases h
          exact str_append_ne_empty _ _ (str_append_ne_empty _ _ (by decide))
        · rcases hp : _parse_profile_from_html u body with _ | profile
          · simp only [hp] at h
            cases h; decide
          · simp only [hp] at h
            cases h
            exact pair_snd_ne_empty _ _ (by decide)

/-- The Playwright strategy always returns a non-empty message. -/
theorem playwright_msg_ne (u : String) (imp : Bool)
    (run : Except String PlaywrightRun) (r : Option InstagramProfile × String)
    (h : _fetch_via_playwright u imp run = .ok r) : r.2 ≠ "" := by
  unfold _fetch_via_playwright at h
  cases imp
  · cases h; decide
  · rcases run with exc | pr
    · cases h
      exact str_append_ne_empty _ _ (by decide)
    · obtain ⟨st, html⟩ := pr
      cases st with
      | none =>
          dsimp only at h
          rcases hp : _parse_profile_from_html u html with _ | profile
          · simp only [hp] at h
            cases h; decide
          · simp only [hp] at h
            cases h
            exact pair_snd_ne_empty _ _ (by decide)
      | some status =>
          dsimp only at h
          by_cases hs : 400 ≤ status
          · simp only [if_pos hs] at h
            cases h
            exact str_append_ne_empty _ _ (str_append_ne_empty _ _ (by decide))
          · simp only [if_neg hs] at h
            rcases hp : _parse_profile_from_html u html with _ | profile
            · simp only [hp] at h
              cases h; decide
            · simp only [hp] at h
              cases h
              exact pair_snd_ne_empty _ _ (by decide)

/-- The instaloader strategy always returns a non-empty message. -/
theorem instaloader_msg_ne (u : String) (en imp : Bool)
    (call : Except String LoaderProfile) (r : Option InstagramProfile × String)
    (h : _fetch_via_instaloader u en imp call = .ok r) : r.2 ≠ "" := by
  unfold _fetch_via_instaloader at h
  cases en
  · cases h; decide
  · cases imp
    · cases h; decide
    · rcases call with exc | p
      · by_cases h429 : (occursInStr "429" exc || occursInStr "Too Many Requests" exc) = true
        · simp only [h429] at h
          cases h; decide
        · simp only [Bool.not_eq_true] at h429
          simp only [h429] at h
          cases h
          exact str_append_ne_empty _ _ (by decide)
      · cases h
        exact pair_snd_ne_empty _ _ (by decide)

/-- Every strategy outcome in the priority list carries a non-empty
message. -/
theorem stratResults_msg_ne (handle : String) (w : FetchWorld)
    (r : Option InstagramProfile × String)
    (h : Except.ok r ∈ stratResults handle w) : r.2 ≠ "" := by
  simp only [stratResults, fetchersOf, List.map_cons, List.map_nil, List.mem_cons,
    List.not_mem_nil, or_false] at h
  rcases h with h | h | h | h | h | h
  · exact instagrapi_msg_ne _ _ _ _ _ h.symm
  · exact web_api_msg_ne _ _ _ h.symm
  · exact legacy_msg_ne _ _ _ h.symm
  · exact requests_msg_ne _ _ _ h.symm
  · exact playwright_msg_ne _ _ _ _ h.symm
  · exact instaloader_msg_ne _ _ _ _ _ h.symm

/-- If its GET does not raise, the requests strategy returns normally. -/
theorem requests_ok_of_not_raised (u : String) (net : HttpResult HtmlDoc)
    (h : net.isRaised = false) : ∃ r, _fetch_via_requests u net = .ok r := by
  cases hr : _fetch_via_requests u net with
  | ok r => exact ⟨r, rfl⟩
  | error e =>
      rw [requests_error_iff] at hr
      subst hr
      simp [HttpResult.isRaised] at h

/-- If its GET does not raise, the web profile API strategy returns
normally. -/
theorem web_api_ok_of_not_raised (u : String) (net : HttpResult (Option WebApiPayload))
    (h : net.isRaised = false) : ∃ r, _fetch_via_web_profile_api u net = .ok r := by
  cases hr : _fetch_via_web_profile_api u net with
  | ok r => exact ⟨r, rfl⟩
  | error e =>
      rw [web_api_error_iff] at hr
      subst hr
      simp [HttpResult.isRaised] at h

/-- If its GET does not raise, the legacy JSON strategy returns
normally. -/
theorem legacy_ok_of_not_raised (u : String) (net : HttpResult (Option LegacyPayload))
    (h : net.isRaised = false) : ∃ r, _fetch_via_legacy_json u net = .ok r := by
  cases hr : _fetch_via_legacy_json u net with
  | ok r => exact ⟨r, rfl⟩
  | error e =>
      rw [legacy_error_iff] at hr
      subst hr
      simp [HttpResult.isRaised] at h

/-- The empty rendered document: no extraction regex matches. -/
def emptyDoc : HtmlDoc :=
  { metaDescription := none, biographyField := none, ldJsonDescription := none,
    edgeFollowedByHint := none, edgeFollowHint := none, edgeMediaHint := none,
    hasProfilePicMarker := false }

/-- A world in which every strategy fails with a reason: no credentials,
404 answers, missing runtimes, instaloader disabled. -/
def worldAllFail : FetchWorld :=
  { instagrapiCreds := none, instagrapiImportOk := false, instagrapiCall := .error "x",
    webApiNetwork := .ok 404 none, legacyNetwork := .ok 404 none,
    requestsNetwork := .ok 404 emptyDoc, playwrightImportOk := false,
    playwrightRun := .error "x", instaloaderEnabled := false,
    instaloaderImportOk := false, instaloaderCall := .error "x" }

/-- A world in which the GET of the web profile API strategy raises a
transport exception. -/
def worldTransportFault : FetchWorld :=
  { worldAllFail with webApiNetwork := .raised "ConnectionError" }

/-- Claim C2 counterexample: a transport fault raised inside
`_fetch_via_web_profile_api` is not converted to a failure reason: it
escapes the strategy boundary, and `fetch_instagram_profile` propagates it
instead of returning normally, contradicting the claim that no transport
fault escapes and that the orchestrator never raises. -/
theorem transport_fault_escapes :
    _fetch_via_web_profile_api "alice" (.raised "ConnectionError") =
      .error "ConnectionError" ∧
    fetch_instagram_profile "alice" worldTransportFault = .error "ConnectionError" := by
  decide

/-- Claim C2 (amended): the instagrapi, Playwright and instaloader
strategies absorb every fault of their calls; the three requests-based
strategies convert HTTP error statuses, invalid JSON and unparsable pages
into failure reasons but propagate exactly the transport faults raised by
their GET; and `fetch_instagram_profile` returns normally whenever none of
the three GETs raises. -/
theorem strategy_exception_policy :
    (∀ u creds imp call, ∃ r, _fetch_via_instagrapi u creds imp call = .ok r) ∧
    (∀ u imp run, ∃ r, _fetch_via_playwright u imp run = .ok r) ∧
    (∀ u en imp call, ∃ r, _fetch_via_instaloader u en imp call = .ok r) ∧
    (∀ u net exn, _fetch_via_requests u net = .error exn ↔ net = .raised exn) ∧
    (∀ u net exn, _fetch_via_web_profile_api u net = .error exn ↔ net = .raised exn) ∧
    (∀ u net exn, _fetch_via_legacy_json u net = .error exn ↔ net = .raised exn) ∧
    (∀ (username : String) (w : FetchWorld),
        w.webApiNetwork.isRaised = false → w.legacyNetwork.isRaised = false →
        w.requestsNetwork.isRaised = false →
        ∃ r, fetch_instagram_profile username w = .ok r) := by
  refine ⟨instagrapi_never_raises, playwright_never_raises, instaloader_never_raises,
    requests_error_iff, web_api_error_iff, legacy_error_iff, ?_⟩
  intro username w h1 h2 h3
  by_cases hne : clean_username username = ""
  · refine ⟨(none, "Please enter a valid username."), ?_⟩
    simp [fetch_instagram_profile, hne]
  · have hfetch : fetch_instagram_profile username w =
        resultsLoop (stratResults (clean_username username) w) [] := by
      simp only [fetch_instagram_profile]
      rw [if_neg hne, fetchLoop_eq_resultsLoop]
      rfl
    rw [hfetch]
    apply resultsLoop_all_ok
    intro e he
    simp only [stratResults, fetchersOf, List.map_cons, List.map_nil, List.mem_cons,
      List.not_mem_nil, or_false] at he
    rcases he with he | he | he | he | he | he <;> subst he
    · exact instagrapi_never_raises _ _ _ _
    · exact web_api_ok_of_not_raised _ _ h1
    · exact legacy_ok_of_not_raised _ _ h2
    · exact requests_ok_of_not_raised _ _ h3
    · exact playwright_never_raises _ _ _
    · exact instaloader_never_raises _ _ _ _

/-- Witness: in a world where all GETs answer (with 404) and no runtime is
available, the orchestrator returns normally. -/
theorem strategy_exception_policy_witness :
    ∃ r, fetch_instagram_profile "bob" worldAllFail = .ok r :=
  strategy_exception_policy.2.2.2.2.2.2 "bob" worldAllFail (by decide) (by decide)
    (by decide)

/-- Claim C3 counterexample: the source strips outer whitespace first and
leading `@` second, so the whitespace between the `@` and the name
survives: `"@  alice  "` normalizes to `"  alice"`, not `"alice"`. -/
theorem clean_username_not_alice :
    clean_username "@  alice  " ≠ "alice" ∧ clean_username "@  alice  " = "  alice" := by
  decide

/-- Claim C3 (amended): `fetch_instagram_profile` normalizes the raw
username by trimming outer whitespace and then stripping leading `"@"`
characters, in that order; `"@  alice  "` therefore normalizes to
`"  alice"`, and that is the handle handed to the strategy loop. -/
theorem clean_username_amended :
    clean_username "@  alice  " = "  alice" ∧
    (∀ w : FetchWorld,
        fetch_instagram_profile "@  alice  " w = fetchLoop "  alice" (fetchersOf w) []) := by
  refine ⟨by decide, fun w => ?_⟩
  simp only [fetch_instagram_profile]
  rw [show clean_username "@  alice  " = "  alice" from by decide]
  rw [if_neg (by decide : ¬("  alice" : String) = "")]

/-- Claim C4: with a non-empty normalized username the orchestrator runs
the strategies in the fixed order instagrapi, web profile API, legacy
JSON, requests, Playwright, instaloader; it returns the first success
regardless of any later outcome, and when all six fail it returns the six
failure reasons joined in attempt order, each of them non-empty. -/
theorem fetch_priority_order (username : String) (w : FetchWorld)
    (hne : clean_username username ≠ "") :
    (∀ (n : Nat) (p : InstagramProfile) (label : String),
        (∀ i, i < n →
          ∃ m, (stratResults (clean_username username) w)[i]? =
            some (Except.ok (Option.none, m))) →
        (stratResults (clean_username username) w)[n]? =
          some (Except.ok (some p, label)) →
        fetch_instagram_profile username w = .ok (some p, label)) ∧
    (∀ rs : List (Option InstagramProfile × String),
        stratResults (clean_username username) w = rs.map Except.ok →
        (∀ r ∈ rs, r.1 = Option.none) →
        fetch_instagram_profile username w =
          .ok (none,
            "Unable to fetch from Instagram. Please enter account details manually. ("
              ++ pyJoin " | " (rs.map Prod.snd) ++ ")") ∧
        rs.length = 6 ∧ (∀ m ∈ rs.map Prod.snd, m ≠ "")) := by
  have hfetch : fetch_instagram_profile username w =
      resultsLoop (stratResults (clean_username username) w) [] := by
    simp only [fetch_instagram_profile]
    rw [if_neg hne, fetchLoop_eq_resultsLoop]
    rfl
  constructor
  · intro n p label hfail hsucc
    rw [hfetch]
    exact resultsLoop_first_success _ _ n p label hfail hsucc
  · intro rs hrs hfail
    have hmsgs : ∀ m ∈ rs.map Prod.snd, m ≠ "" := by
      intro m hm
      rw [List.mem_map] at hm
      obtain ⟨r, hrmem, rfl⟩ := hm
      apply stratResults_msg_ne (clean_username username) w r
      rw [hrs]
      exact List.mem_map_of_mem _ hrmem
    have hlen : rs.length = 6 := by
      have h6 := congrArg List.length hrs
      simp [stratResults, fetchersOf] at h6
      omega
    have hfilt : (rs.map Prod.snd).filter (fun e => e ≠ "") = rs.map Prod.snd := by
      rw [List.filter_eq_self]
      intro a ha
      simpa using hmsgs a ha
    refine ⟨?_, hlen, hmsgs⟩
    rw [hfetch, hrs, resultsLoop_all_fail rs [] hfail]
    simp only [exhaustedMessage, List.nil_append]
    rw [hfilt]

/-- Witness: in the all-fail world the orchestrator reports all six
reasons in attempt order. -/
theorem fetch_priority_order_witness :
    fetch_instagram_profile "alice" worldAllFail =
      .ok (none,
        "Unable to fetch from Instagram. Please enter account details manually. ("
          ++ pyJoin " | "
            ["Instagrapi credentials missing.", "Username not found on Instagram.",
             "Legacy JSON username not found.", "Username not found on Instagram.",
             "Playwright unavailable.", "Instaloader disabled."] ++ ")") :=
  ((fetch_priority_order "alice" worldAllFail (by decide)).2
    [(Option.none, "Instagrapi credentials missing."),
     (Option.none, "Username not found on Instagram."),
     (Option.none, "Legacy JSON username not found."),
     (Option.none, "Username not found on Instagram."),
     (Option.none, "Playwright unavailable."),
     (Option.none, "Instaloader disabled.")]
    (by decide) (by decide)).1

/- ### `src/utils/verdict.py` -/

/-- `VerdictResult` dataclass of `src/utils/verdict.py`. -/
structure VerdictResult where
  verdict : String
  risk_score : ℤ
  reasoning : String
deriving DecidableEq

/-- Lines 32-39 of `src/utils/verdict.py`: neutral substitution for an
absent similarity score, the risk blend, and `int(round(...))`. -/
def verdict_base_risk (account_prediction : String) (account_confidence : ℚ)
    (image_status : String) (image_similarity_score : Option ℚ) : ℤ :=
  let sim : ℚ := image_similarity_score.getD (1 / 2)
  let account_risk : ℚ :=
    if account_prediction = "Fake" then account_confidence else 1 - account_confidence
  let image_risk : ℚ := if image_status = "Possibly Reused" then sim else 0
  roundHalfToEven ((account_risk * (6 / 10) + image_risk * (4 / 10)) * 100)

/-- `compute_verdict` of `src/utils/verdict.py`. -/
def compute_verdict (account_prediction : String) (account_confidence : ℚ)
    (image_status : String) (image_similarity_score : Option ℚ) : VerdictResult :=
  let risk_score : ℤ :=
    verdict_base_risk account_prediction account_confidence image_status image_similarity_score
  if account_prediction = "Fake" ∧ image_status = "Possibly Reused" then
    { verdict := "High Risk Fake", risk_score := min 100 (risk_score + 20),
      reasoning := "Account behavior suggests fake AND profile image appears reused." }
  else if account_prediction = "Fake" ∧ image_status = "Original" then
    { verdict := "Suspicious", risk_score := max 50 (risk_score + 10),
      reasoning := "Account behavior suggests fake but profile image appears original." }
  else if account_prediction = "Real" ∧ image_status = "Original" then
    { verdict := "Likely Genuine", risk_score := max 0 (risk_score - 20),
      reasoning := "Account behavior suggests real AND profile image appears original." }
  else if account_prediction = "Real" ∧ image_status = "Possibly Reused" then
    { verdict := "Needs Review", risk_score := risk_score + 5,
      reasoning := "Account behavior suggests real but profile image appears reused." }
  else
    { verdict := "Needs Review", risk_score := risk_score,
      reasoning := "Unable to determine verdict with available data." }

/-- Claim C1: the claim asserts `risk_score` always lies in [0,100]. The code
has no output clamp in the `(Real, Possibly Reused)` branch: at prediction
`Real`, confidence `0`, image status `Possibly Reused`, similarity `1`, the
base risk is `100` and the returned risk score is `105 > 100`, contradicting
the claim and the docstring of `compute_verdict` (`risk_score (0-100)`). -/
theorem compute_verdict_risk_score_exceeds_100 :
    compute_verdict "Real" 0 "Possibly Reused" (some 1) =
      { verdict := "Needs Review", risk_score := 105,
        reasoning := "Account behavior suggests real but profile image appears reused." } ∧
    100 < (compute_verdict "Real" 0 "Possibly Reused" (some 1)).risk_score := by
  decide

/-- Claim C5: at prediction `Fake`, confidence `0.9`, image status
`Possibly Reused`, similarity `0.8`, the base risk is
`round(100 * (0.6 * 0.9 + 0.4 * 0.8)) = 86`, the verdict is
`High Risk Fake`, and the risk score is `min 100 (86 + 20) = 100`. -/
theorem compute_verdict_scenario_one :
    verdict_base_risk "Fake" (9 / 10) "Possibly Reused" (some (8 / 10)) = 86 ∧
    compute_verdict "Fake" (9 / 10) "Possibly Reused" (some (8 / 10)) =
      { verdict := "High Risk Fake", risk_score := min 100 (86 + 20),
        reasoning := "Account behavior suggests fake AND profile image appears reused." } := by
  decide

/- ### `src/utils/image_check.py` -/

/-- A corpus directory entry as `check_image_originality` sees it: a
non-file entry (skipped), an unreadable image (hash computation raises,
skipped), or a readable image with its perceptual-hash Hamming distance to
the uploaded image. -/
inductive CorpusEntry where
  | notFile
  | unreadable
  | image (distance : Nat)
deriving DecidableEq

/-- The result dictionary of `check_image_originality`; `closest_found`
models whether `closest_match` is a path rather than `None`. -/
structure ImageCheckResult where
  image_status : String
  similarity_score : ℚ
  closest_distance : ℤ
  closest_found : Bool
deriving DecidableEq

/-- The scan loop of lines 37-47: keep the smallest distance over the
readable images, the first one on ties. -/
def closestScan : List CorpusEntry → Option Nat → Option Nat
  | [], acc => acc
  | .notFile :: rest, acc => closestScan rest acc
  | .unreadable :: rest, acc => closestScan rest acc
  | .image d :: rest, acc =>
      match acc with
      | none => closestScan rest (some d)
      | some c => if d < c then closestScan rest (some d) else closestScan rest (some c)

/-- `check_image_originality` of `src/utils/image_check.py` (lines 18-60),
with the filesystem made explicit: `imageExists` is the `image_path.exists()`
probe and `corpus` the directory contents. A missing input image raises
`FileNotFoundError`, modelled as `Except.error`. -/
def check_image_originality (image_path : String) (imageExists : Bool)
    (corpus : List CorpusEntry) (threshold : Nat) (hash_size : Nat) :
    Except String ImageCheckResult :=
  if !imageExists then .error ("Image not found: " ++ image_path)
  else
    let scanned := closestScan corpus none
    let closest_distance := scanned.getD (hash_size * hash_size)
    let similarity : ℚ :=
      max 0 (1 - (closest_distance : ℚ) / ((hash_size * hash_size : Nat) : ℚ))
    let status := if closest_distance ≤ threshold then "Possibly Reused" else "Original"
    .ok { image_status := status, similarity_score := pyRoundTo4 similarity,
          closest_distance := (closest_distance : ℤ), closest_found := scanned.isSome }

/-- The similarity score of an image check outcome (0 on error). -/
def simScoreOf (r : Except String ImageCheckResult) : ℚ :=
  match r with
  | .ok v => v.similarity_score
  | .error _ => 0

/-- The image branch of the submit handler, `src/streamlit_app.py` lines
152-158: with no upload the status is `"No Image"` and the similarity is
absent; with an upload the saved file is handed to the detector with its
default threshold and hash size. -/
def submitted_image_signal (uploaded : Option (String × Bool × List CorpusEntry)) :
    Except String (String × Option ℚ) :=
  match uploaded with
  | none => .ok ("No Image", none)
  | some (path, ex, corpus) =>
      match check_image_originality path ex corpus 8 8 with
      | .error e => .error e
      | .ok r => .ok (r.image_status, some r.similarity_score)

/-- A scan over a corpus without readable images returns its accumulator. -/
theorem closestScan_no_image (corpus : List CorpusEntry) (acc : Option Nat)
    (h : ∀ e ∈ corpus, e = CorpusEntry.notFile ∨ e = CorpusEntry.unreadable) :
    closestScan corpus acc = acc := by
  induction corpus with
  | nil => rfl
  | cons e rest ih =>
      rcases h e (List.mem_cons_self _ _) with he | he <;> subst he <;>
        exact ih (fun e hm => h e (List.mem_cons_of_mem _ hm))

/-- Claim C8: when the corpus holds no readable image, the detector takes
the closest distance to be `hash_size * hash_size = 64`, and returns
similarity `0` with status `"Original"`. -/
theorem empty_corpus_original (path : String) (corpus : List CorpusEntry)
    (h : ∀ e ∈ corpus, e = CorpusEntry.notFile ∨ e = CorpusEntry.unreadable) :
    check_image_originality path true corpus 8 8 =
      .ok { image_status := "Original", similarity_score := 0,
            closest_distance := 64, closest_found := false } := by
  simp only [check_image_originality, closestScan_no_image corpus none h]
  rw [if_neg (by decide : ¬((!true) = true))]
  decide

/-- Witness for the empty corpus claim at a concrete corpus of one
non-file entry and one unreadable image. -/
theorem empty_corpus_original_witness :
    check_image_originality "img.png" true [CorpusEntry.notFile, CorpusEntry.unreadable] 8 8 =
      .ok { image_status := "Original", similarity_score := 0,
            closest_distance := 64, closest_found := false } :=
  empty_corpus_original "img.png" [CorpusEntry.notFile, CorpusEntry.unreadable]
    (by decide)

/-- Claim C9: over the default 8 by 8 hash, the similarity score reported
by the detector is monotonically decreasing in the closest Hamming
distance, lies in `[0, 1]`, and is exactly `1` at distance `0`. -/
theorem similarity_monotone_bounded :
    (∀ d2, d2 < 65 → ∀ d1, d1 ≤ d2 →
      simScoreOf (check_image_originality "img.png" true [CorpusEntry.image d2] 8 8) ≤
        simScoreOf (check_image_originality "img.png" true [CorpusEntry.image d1] 8 8)) ∧
    (∀ d, d < 65 →
      0 ≤ simScoreOf (check_image_originality "img.png" true [CorpusEntry.image d] 8 8) ∧
      simScoreOf (check_image_originality "img.png" true [CorpusEntry.image d] 8 8) ≤ 1) ∧
    simScoreOf (check_image_originality "img.png" true [CorpusEntry.image 0] 8 8) = 1 := by
  decide

/-- Witness for the similarity claim at distances 3 and 7. -/
theorem similarity_monotone_bounded_witness :
    simScoreOf (check_image_originality "img.png" true [CorpusEntry.image 7] 8 8) ≤
      simScoreOf (check_image_originality "img.png" true [CorpusEntry.image 3] 8 8) ∧
    0 ≤ simScoreOf (check_image_originality "img.png" true [CorpusEntry.image 7] 8 8) :=
  ⟨similarity_monotone_bounded.1 7 (by decide) 3 (by decide),
   (similarity_monotone_bounded.2.1 7 (by decide)).1⟩

/-- Claim C10: a missing input image makes the detector raise
`FileNotFoundError` instead of returning a result; when it does return, its
status is `"Original"` or `"Possibly Reused"`, never `"No Image"`; the
`"No Image"` status is produced only by the submit handler when no file
was uploaded. -/
theorem missing_image_raises :
    (∀ path corpus threshold hash_size,
        check_image_originality path false corpus threshold hash_size =
          .error ("Image not found: " ++ path)) ∧
    (∀ path corpus threshold hash_size r,
        check_image_originality path true corpus threshold hash_size = .ok r →
        r.image_status = "Original" ∨ r.image_status = "Possibly Reused") ∧
    submitted_image_signal none = .ok ("No Image", none) ∧
    (∀ uploaded sim, submitted_image_signal uploaded = .ok ("No Image", sim) →
        uploaded = none) := by
  refine ⟨fun path corpus threshold hash_size => rfl, ?_, rfl, ?_⟩
  · intro path corpus threshold hash_size r h
    simp only [check_image_originality, Bool.not_true] at h
    rw [if_neg (by simp)] at h
    by_cases hc : (closestScan corpus none).getD (hash_size * hash_size) ≤ threshold
    · simp only [if_pos hc] at h
      cases h
      exact Or.inr rfl
    · simp only [if_neg hc] at h
      cases h
      exact Or.inl rfl
  · intro uploaded sim h
    rcases uploaded with _ | ⟨path, ex, corpus⟩
    · rfl
    · exfalso
      cases ex
      · simp [submitted_image_signal, check_image_originality] at h
      · have hstat :
            ∀ r, check_image_originality path true corpus 8 8 = .ok r →
              r.image_status = "Original" ∨ r.image_status = "Possibly Reused" := by
          intro r hr
          simp only [check_image_originality, Bool.not_true] at hr
          rw [if_neg (by simp)] at hr
          by_cases hc : (closestScan corpus none).getD (8 * 8) ≤ 8
          · simp only [if_pos hc] at hr
            cases hr
            exact Or.inr rfl
          · simp only [if_neg hc] at hr
            cases hr
            exact Or.inl rfl
        simp only [submitted_image_signal] at h
        cases hck : check_image_originality path true corpus 8 8 with
        | error e => rw [hck] at h; simp at h
        | ok r =>
            rw [hck] at h
            simp only [Except.ok.injEq, Prod.mk.injEq] at h
            rcases hstat r hck with hs | hs <;> rw [hs] at h <;> simp at h

/-- Witness for the missing image claim: the detector refuses a missing
path, and the empty-corpus detector result is not `"No Image"`. -/
theorem missing_image_raises_witness :
    check_image_originality "gone.png" false [] 8 8 =
      .error ("Image not found: " ++ "gone.png") ∧
    (({ image_status := "Original", similarity_score := 0, closest_distance := 64,
        closest_found := false } : ImageCheckResult).image_status = "Original" ∨
     ({ image_status := "Original", similarity_score := 0, closest_distance := 64,
        closest_found := false } : ImageCheckResult).image_status = "Possibly Reused") :=
  ⟨missing_image_raises.1 "gone.png" [] 8 8,
   missing_image_raises.2.1 "gone.png" [] 8 8 _ (by decide)⟩

end FakeAccountDetector
